import Mathlib

/-!
Shallow embedding of the geoarrow-viz core (src/model/mod.rs, src/engine/*.rs)
over exact rational arithmetic: every Rust `f64` value is modelled as a `ℚ`
(each finite IEEE double is a rational, and all the arithmetic the embedded
code performs is field arithmetic), `u32`/`u8`/`usize` values as `ℕ`.
Where the Rust code can panic the embedded function returns `Option`/`none`,
and where it returns `Result<T, GeoArrowError>` the embedding returns
`Except GeoArrowError T`.  Lean's total division (`q / 0 = 0`) is flagged in
a comment at the one place it matters (`RenderContext.world_to_screen` with
empty bounds, where IEEE arithmetic would give a non-finite value instead).
-/

namespace GeoArrowViz

/-- Error type from src/error.rs (`GeoArrowError`); each variant carries its
message string. -/
inductive GeoArrowError where
  | Io : String → GeoArrowError
  | Arrow : String → GeoArrowError
  | Parquet : String → GeoArrowError
  | Serialization : String → GeoArrowError
  | Wasm : String → GeoArrowError
deriving DecidableEq, Repr

/-- Geographic bounds rectangle from src/model/mod.rs (`GeoBounds`,
aliased `Bounds`). -/
structure GeoBounds where
  min_x : ℚ
  min_y : ℚ
  max_x : ℚ
  max_y : ℚ
deriving DecidableEq, Repr

/-- Pixel-space bounds rectangle from src/model/mod.rs (`PixelBounds`). -/
structure PixelBounds where
  min_x : ℚ
  min_y : ℚ
  max_x : ℚ
  max_y : ℚ
deriving DecidableEq, Repr

/-- Tile-space bounds rectangle from src/model/mod.rs (`TileBounds`). -/
structure TileBounds where
  min_x : ℚ
  min_y : ℚ
  max_x : ℚ
  max_y : ℚ
deriving DecidableEq, Repr

/-- `GeoBounds::new` from src/model/mod.rs. -/
def GeoBounds.new (min_x min_y max_x max_y : ℚ) : GeoBounds :=
  { min_x := min_x, min_y := min_y, max_x := max_x, max_y := max_y }

/-- `GeoBounds::is_empty` from src/model/mod.rs:
`self.min_x >= self.max_x || self.min_y >= self.max_y`. -/
def GeoBounds.is_empty (b : GeoBounds) : Bool :=
  decide (b.min_x ≥ b.max_x) || decide (b.min_y ≥ b.max_y)

/-- `GeoBounds::contains` from src/model/mod.rs. -/
def GeoBounds.contains (b : GeoBounds) (x y : ℚ) : Bool :=
  decide (x ≥ b.min_x) && decide (x ≤ b.max_x) &&
  decide (y ≥ b.min_y) && decide (y ≤ b.max_y)

/-- `GeoBounds::intersects` from src/model/mod.rs. -/
def GeoBounds.intersects (b other : GeoBounds) : Bool :=
  !(decide (b.max_x ≤ other.min_x) || decide (b.min_x ≥ other.max_x) ||
    decide (b.max_y ≤ other.min_y) || decide (b.min_y ≥ other.max_y))

/-- `TileBounds::new` from src/model/mod.rs. -/
def TileBounds.new (min_x min_y max_x max_y : ℚ) : TileBounds :=
  { min_x := min_x, min_y := min_y, max_x := max_x, max_y := max_y }

/-- `TileBounds::from_tile_coords` from src/model/mod.rs.
`tile_size = 1.0 / (1u32 << z) as f64`; the shift `1u32 << z` is `2 ^ z`
(the one caller, `Tile::new`, has already rejected `z > 20`, so the shift
amount never reaches the u32 width). -/
def TileBounds.from_tile_coords (x y : ℕ) (z : ℕ) : TileBounds :=
  let tile_size : ℚ := 1 / ((2 ^ z : ℕ) : ℚ)
  let min_x : ℚ := (x : ℚ) * tile_size
  let min_y : ℚ := (y : ℚ) * tile_size
  TileBounds.new min_x min_y (min_x + tile_size) (min_y + tile_size)

/-- Geographic point from src/model/mod.rs (`GeoPoint { lat, lng }`). -/
structure GeoPoint where
  lat : ℚ
  lng : ℚ
deriving DecidableEq, Repr

/-- `GeoPoint::new` from src/model/mod.rs (argument order lat, lng). -/
def GeoPoint.new (lat lng : ℚ) : GeoPoint := { lat := lat, lng := lng }

/-- `GeoPoint::is_valid` from src/model/mod.rs:
`lat >= -90.0 && lat <= 90.0 && lng >= -180.0 && lng <= 180.0`. -/
def GeoPoint.is_valid (p : GeoPoint) : Bool :=
  decide (p.lat ≥ -90) && decide (p.lat ≤ 90) &&
  decide (p.lng ≥ -180) && decide (p.lng ≤ 180)

/-- Pixel size from src/model/mod.rs (`PixelSize { width, height }`, both u32). -/
structure PixelSize where
  width : ℕ
  height : ℕ
deriving DecidableEq, Repr

/-- Tile load status from src/model/mod.rs (`TileStatus`). -/
inductive TileStatus where
  | NotLoaded
  | Loading
  | Loaded
  | Error : String → TileStatus
deriving DecidableEq, Repr

/-- Feature geometry union from src/model/mod.rs (`FeatureGeometry`). -/
inductive FeatureGeometry where
  | Point : GeoPoint → FeatureGeometry
  | LineString : List GeoPoint → FeatureGeometry
  | Polygon : List (List GeoPoint) → FeatureGeometry
  | MultiPoint : List GeoPoint → FeatureGeometry
  | MultiLineString : List (List GeoPoint) → FeatureGeometry
  | MultiPolygon : List (List (List GeoPoint)) → FeatureGeometry
deriving DecidableEq, Repr

/-- `FeatureGeometry::is_valid` from src/model/mod.rs.  The Rust ring check is
`ring.len() >= 4 && ring.iter().all(|p| p.is_valid()) && ring.first() == ring.last()`;
`first()`/`last()` are `Option<&GeoPoint>` so the closing test compares
`head?` with `getLast?`. -/
def FeatureGeometry.is_valid : FeatureGeometry → Bool
  | .Point p => p.is_valid
  | .LineString points => !points.isEmpty && points.all GeoPoint.is_valid
  | .MultiPoint points => !points.isEmpty && points.all GeoPoint.is_valid
  | .Polygon rings =>
      !rings.isEmpty && rings.all (fun ring =>
        decide (4 ≤ ring.length) && ring.all GeoPoint.is_valid &&
        decide (ring.head? = ring.getLast?))
  | .MultiLineString lines =>
      !lines.isEmpty && lines.all (fun line =>
        !line.isEmpty && line.all GeoPoint.is_valid)
  | .MultiPolygon polygons =>
      !polygons.isEmpty && polygons.all (fun rings =>
        !rings.isEmpty && rings.all (fun ring =>
          decide (4 ≤ ring.length) && ring.all GeoPoint.is_valid &&
          decide (ring.head? = ring.getLast?)))

/-- Feature from src/model/mod.rs (`GeoFeature`).  The `properties` DashMap is
omitted: no embedded operation reads it. -/
structure GeoFeature where
  id : String
  geometry : FeatureGeometry
  bounds : GeoBounds
deriving DecidableEq, Repr

/-- Tile from src/model/mod.rs (`Tile`). -/
structure Tile where
  x : ℕ
  y : ℕ
  z : ℕ
  bounds : TileBounds
  features : List GeoFeature
  status : TileStatus
  last_accessed : ℕ
deriving DecidableEq, Repr

/-- `Tile::new` from src/model/mod.rs.  `panic!("Zoom level must be 0-20")`
when `z > 20` is modelled as `none`.  The wall-clock read
(`SystemTime::now()...as_secs()`) is passed in as `now`. -/
def Tile.new (x y : ℕ) (z : ℕ) (now : ℕ) : Option Tile :=
  if z > 20 then
    none
  else
    some { x := x, y := y, z := z,
           bounds := TileBounds.from_tile_coords x y z,
           features := [],
           status := TileStatus.NotLoaded,
           last_accessed := now }

/-- `Tile::is_valid_for_zoom` from src/model/mod.rs. -/
def Tile.is_valid_for_zoom (t : Tile) (z : ℕ) : Bool :=
  decide (t.x < 2 ^ z) && decide (t.y < 2 ^ z) && decide (t.z = z)

/-- Validation message used by `Viewport::new` and `Viewport::pan`. -/
def msgInvalidCenter : String := "Invalid center coordinates"

/-- Validation message used by `Viewport::new` and `Viewport::zoom_to`. -/
def msgInvalidZoom : String := "Zoom must be between 0.0 and 20.0"

/-- Validation message used by `Viewport::new` and `Viewport::resize`. -/
def msgInvalidSize : String := "Size dimensions must be greater than 0"

/-- Viewport from src/model/mod.rs (`Viewport`). -/
structure Viewport where
  center : GeoPoint
  zoom : ℚ
  rotation : ℚ
  size : PixelSize
  bounds : GeoBounds
  pixel_bounds : PixelBounds
deriving DecidableEq, Repr

/-- `Viewport::recalculate_bounds` from src/model/mod.rs.
`self.zoom as u32` truncates toward zero and saturates negatives at 0, which
for any rational is `⌊zoom⌋.toNat`; `1u32 << z` is `2 ^ z` (zoom is kept in
[0,20] by every constructor and mutator, so the shift amount stays below the
u32 width). -/
def Viewport.recalculate_bounds (v : Viewport) : Viewport :=
  let scale : ℚ := 1 / ((2 ^ (Int.floor v.zoom).toNat : ℕ) : ℚ)
  let half_width : ℚ := ((v.size.width : ℚ) / 2) * scale * 360 / 256
  let half_height : ℚ := ((v.size.height : ℚ) / 2) * scale * 180 / 256
  let b :=
    GeoBounds.new (v.center.lng - half_width) (v.center.lat - half_height)
      (v.center.lng + half_width) (v.center.lat + half_height)
  { v with bounds := b }

/-- `Viewport::new` from src/model/mod.rs. -/
def Viewport.new (center : GeoPoint) (zoom : ℚ) (size : PixelSize) :
    Except GeoArrowError Viewport :=
  if !center.is_valid then
    Except.error (GeoArrowError.Serialization msgInvalidCenter)
  else if zoom < 0 ∨ zoom > 20 then
    Except.error (GeoArrowError.Serialization msgInvalidZoom)
  else if size.width = 0 ∨ size.height = 0 then
    Except.error (GeoArrowError.Serialization msgInvalidSize)
  else
    Except.ok (Viewport.recalculate_bounds
      { center := center, zoom := zoom, rotation := 0, size := size,
        bounds := GeoBounds.new 0 0 0 0,
        pixel_bounds := { min_x := 0, min_y := 0,
                          max_x := (size.width : ℚ), max_y := (size.height : ℚ) } })

/-- `Viewport::pan` from src/model/mod.rs.  The Rust method mutates `&mut self`
and returns `Result<()>`; it is embedded state-passing style, an error meaning
the early `return Err(..)` fired before any field was written (the viewport is
left unchanged). -/
def Viewport.pan (v : Viewport) (new_center : GeoPoint) :
    Except GeoArrowError Viewport :=
  if !new_center.is_valid then
    Except.error (GeoArrowError.Serialization msgInvalidCenter)
  else
    Except.ok (Viewport.recalculate_bounds { v with center := new_center })

/-- `Viewport::zoom_to` from src/model/mod.rs. -/
def Viewport.zoom_to (v : Viewport) (new_zoom : ℚ) :
    Except GeoArrowError Viewport :=
  if new_zoom < 0 ∨ new_zoom > 20 then
    Except.error (GeoArrowError.Serialization msgInvalidZoom)
  else
    Except.ok (Viewport.recalculate_bounds { v with zoom := new_zoom })

/-- `Viewport::resize` from src/model/mod.rs. -/
def Viewport.resize (v : Viewport) (new_size : PixelSize) :
    Except GeoArrowError Viewport :=
  if new_size.width = 0 ∨ new_size.height = 0 then
    Except.error (GeoArrowError.Serialization msgInvalidSize)
  else
    Except.ok (Viewport.recalculate_bounds
      { v with size := new_size,
               pixel_bounds := { min_x := 0, min_y := 0,
                                 max_x := (new_size.width : ℚ),
                                 max_y := (new_size.height : ℚ) } })

/-- `Viewport::rotate` from src/model/mod.rs (no validation, no Result). -/
def Viewport.rotate (v : Viewport) (rotation : ℚ) : Viewport :=
  Viewport.recalculate_bounds { v with rotation := rotation }

/-- `Viewport::world_to_screen` from src/model/mod.rs. -/
def Viewport.world_to_screen (v : Viewport) (point : GeoPoint) : ℚ × ℚ :=
  if v.bounds.is_empty then
    (0, 0)
  else
    let x_ratio := (point.lng - v.bounds.min_x) / (v.bounds.max_x - v.bounds.min_x)
    let y_ratio := (point.lat - v.bounds.min_y) / (v.bounds.max_y - v.bounds.min_y)
    let screen_x := x_ratio * (v.size.width : ℚ)
    let screen_y := (v.size.height : ℚ) - y_ratio * (v.size.height : ℚ)
    (screen_x, screen_y)

/-- `Viewport::screen_to_world` from src/model/mod.rs. -/
def Viewport.screen_to_world (v : Viewport) (x y : ℚ) : GeoPoint :=
  if v.bounds.is_empty then
    v.center
  else
    let x_ratio := x / (v.size.width : ℚ)
    let y_ratio := ((v.size.height : ℚ) - y) / (v.size.height : ℚ)
    let lng := v.bounds.min_x + x_ratio * (v.bounds.max_x - v.bounds.min_x)
    let lat := v.bounds.min_y + y_ratio * (v.bounds.max_y - v.bounds.min_y)
    GeoPoint.new lat lng

/-- Inclusive u32 range `a..=b` as a list (empty when `a > b`), used to embed
the tile loops of `Viewport::get_required_tiles`. -/
def rangeIncl (a b : ℕ) : List ℕ :=
  (List.range (b + 1 - a)).map (a + ·)

/-- `Viewport::get_required_tiles` from src/model/mod.rs.
`self.zoom.floor() as u8` saturates at `u8::MAX = 255` (and at 0 from below,
covered by `Int.toNat`); the per-axis index computations floor/ceil an f64 and
cast `as u32`, which saturates negatives at 0 (`Int.toNat` again; the upper
u32 saturation bound is unreachable for in-range geographic bounds and is not
modelled).  Only `max_tile_x`/`max_tile_y` are clamped to `tile_count - 1`,
exactly as in the source loops. -/
def Viewport.get_required_tiles (v : Viewport) : List (ℕ × ℕ × ℕ) :=
  let z : ℕ := min (Int.floor v.zoom).toNat 255
  if z > 20 then
    []
  else
    let tile_count : ℕ := 2 ^ z
    let min_tile_x : ℕ := (Int.floor ((v.bounds.min_x + 180) / 360 * (tile_count : ℚ))).toNat
    let max_tile_x : ℕ := (Int.ceil ((v.bounds.max_x + 180) / 360 * (tile_count : ℚ))).toNat
    let min_tile_y : ℕ := (Int.floor ((1 - (v.bounds.max_y + 90) / 180) * (tile_count : ℚ))).toNat
    let max_tile_y : ℕ := (Int.ceil ((1 - (v.bounds.min_y + 90) / 180) * (tile_count : ℚ))).toNat
    (rangeIncl min_tile_x (min max_tile_x (tile_count - 1))).flatMap (fun x =>
      (rangeIncl min_tile_y (min max_tile_y (tile_count - 1))).map (fun y => (x, y, z)))

/-- Map style from src/view/view.rs (`MapStyle`). -/
structure MapStyle where
  point_color : String
  line_color : String
  polygon_fill : String
  polygon_stroke : String
  point_radius : ℚ
  line_width : ℚ
deriving DecidableEq, Repr

/-- `MapStyle::default` from src/view/view.rs. -/
def MapStyle.default : MapStyle :=
  { point_color := "#FF0000",
    line_color := "#0000FF",
    polygon_fill := "rgba(0, 255, 0, 0.3)",
    polygon_stroke := "#00FF00",
    point_radius := 3,
    line_width := 2 }

/-- Render context from src/engine/mod.rs (`RenderContext`). -/
structure RenderContext where
  viewport_bounds : GeoBounds
  canvas_size : ℚ × ℚ
  zoom_level : ℕ
  style : MapStyle
deriving DecidableEq, Repr

/-- `RenderContext::world_to_screen` from src/engine/mod.rs.  Unlike
`Viewport::world_to_screen` there is no empty-bounds guard: the ratios divide
by the bounds extents unconditionally.  When an extent is zero the Rust f64
division produces a non-finite value; in this exact-rational embedding Lean's
total division makes the ratio 0 instead — either way the result differs from
the `(0, 0)` that `Viewport::world_to_screen` returns on empty bounds. -/
def RenderContext.world_to_screen (context : RenderContext) (x y : ℚ) : ℚ × ℚ :=
  let bounds := context.viewport_bounds
  let x_ratio := (x - bounds.min_x) / (bounds.max_x - bounds.min_x)
  let y_ratio := (y - bounds.min_y) / (bounds.max_y - bounds.min_y)
  let screen_x := x_ratio * context.canvas_size.1
  let screen_y := context.canvas_size.2 - y_ratio * context.canvas_size.2
  (screen_x, screen_y)

/-- GeoJSON position (src uses `geojson::Position = Vec<f64>`; the transform
code reads exactly entries 0 (x = lng) and 1 (y = lat), so a position is
embedded as the pair of those entries). -/
abbrev Position : Type := ℚ × ℚ

/-- `transform_position` from src/engine/geometry.rs. -/
def transform_position (context : RenderContext) (position : Position) : ℚ × ℚ :=
  RenderContext.world_to_screen context position.1 position.2

/-- `transform_coordinates` from src/engine/geometry.rs (the returned closure,
applied to its positions argument). -/
def transform_coordinates (context : RenderContext) (positions : List Position) :
    List (ℚ × ℚ) :=
  positions.map (transform_position context)

/-- GeoJSON geometry value from the `geojson` crate (`Value`), as consumed by
src/engine/mod.rs and src/engine/geometry.rs.  The `Geometry` wrapper adds
only `bbox`/`foreign_members`, which none of the embedded code reads, so a
geometry is embedded as its `value`. -/
inductive GeoValue where
  | Point : Position → GeoValue
  | LineString : List Position → GeoValue
  | Polygon : List (List Position) → GeoValue
  | MultiPoint : List Position → GeoValue
  | MultiLineString : List (List Position) → GeoValue
  | MultiPolygon : List (List (List Position)) → GeoValue
  | GeometryCollection : List GeoValue → GeoValue

/-- GeoJSON feature from the `geojson` crate (`Feature`), as consumed by
src/engine/mod.rs; the rendering pipeline reads only `geometry`. -/
structure Feature where
  geometry : Option GeoValue

/-- `extract_point_coordinates` from src/engine/geometry.rs. -/
def extract_point_coordinates : GeoValue → Option (List Position)
  | .Point coords => some [coords]
  | _ => none

/-- `extract_linestring_coordinates` from src/engine/geometry.rs. -/
def extract_linestring_coordinates : GeoValue → Option (List Position)
  | .LineString coords => some coords
  | _ => none

/-- `extract_polygon_coordinates` from src/engine/geometry.rs. -/
def extract_polygon_coordinates : GeoValue → Option (List (List Position))
  | .Polygon rings => some rings
  | _ => none

/-- `extract_multipoint_coordinates` from src/engine/geometry.rs. -/
def extract_multipoint_coordinates : GeoValue → Option (List Position)
  | .MultiPoint points => some points
  | _ => none

/-- `extract_multilinestring_coordinates` from src/engine/geometry.rs. -/
def extract_multilinestring_coordinates : GeoValue → Option (List (List Position))
  | .MultiLineString lines => some lines
  | _ => none

/-- `extract_multipolygon_coordinates` from src/engine/geometry.rs. -/
def extract_multipolygon_coordinates : GeoValue → Option (List (List (List Position)))
  | .MultiPolygon polygons => some polygons
  | _ => none

/-- `validate_coordinates` from src/engine/geometry.rs checks that every pixel
pair is finite.  Every rational is finite, so over this embedding it is
constantly true; the pipeline in src/engine/mod.rs never calls it anyway. -/
def validate_coordinates (_coords : List (ℚ × ℚ)) : Bool := true

/-- `create_coordinate_transformer` from src/engine/geometry.rs (the returned
closure, applied to its geometry argument). -/
def create_coordinate_transformer (context : RenderContext) (geometry : GeoValue) :
    Option (List (ℚ × ℚ)) :=
  match geometry with
  | .Point _ => (extract_point_coordinates geometry).map (transform_coordinates context)
  | .LineString _ => (extract_linestring_coordinates geometry).map (transform_coordinates context)
  | .MultiPoint _ => (extract_multipoint_coordinates geometry).map (transform_coordinates context)
  | _ => none

/-- `create_polygon_transformer` from src/engine/geometry.rs. -/
def create_polygon_transformer (context : RenderContext) (geometry : GeoValue) :
    Option (List (ℚ × ℚ)) :=
  (extract_polygon_coordinates geometry).bind (fun rings =>
    rings.head?.map (fun outer_ring => transform_coordinates context outer_ring))

/-- One canvas drawing primitive issued against `CanvasRenderingContext2d`
(the Surface capability of the spec), as called by src/engine/renderer.rs. -/
inductive CanvasOp where
  | setFillStyle : String → CanvasOp
  | setStrokeStyle : String → CanvasOp
  | setLineWidth : ℚ → CanvasOp
  | beginPath : CanvasOp
  | arc : ℚ → ℚ → ℚ → ℚ → ℚ → CanvasOp
  | fill : CanvasOp
  | moveTo : ℚ → ℚ → CanvasOp
  | lineTo : ℚ → ℚ → CanvasOp
  | closePath : CanvasOp
  | stroke : CanvasOp
deriving DecidableEq, Repr

/-- Outcome of a rendering call: the `GeoArrowResult<()>` value together with
the trace of canvas primitives issued, in order. -/
abbrev RenderResult : Type := Except GeoArrowError Unit × List CanvasOp

/-- The exact rational value of the f64 constant `std::f64::consts::PI`. -/
def pi64 : ℚ := 884279719003555 / 281474976710656

/-- `render_single_point` from src/engine/renderer.rs.  The `arc` call's
`Result` is an external JS failure (surface unavailable); the drawing target
is modelled as available, so the call succeeds. -/
def render_single_point (x y radius : ℚ) : RenderResult :=
  (Except.ok (), [CanvasOp.beginPath, CanvasOp.arc x y radius 0 (2 * pi64), CanvasOp.fill])

/-- Runs `iter().map(f).collect::<Result<Vec<_>, _>>()` over a list,
short-circuiting at the first error exactly as Rust's lazy collect does, and
concatenating the canvas traces of the calls that actually ran. -/
def runAll (f : α → RenderResult) : List α → RenderResult
  | [] => (Except.ok (), [])
  | x :: xs =>
    match f x with
    | (Except.error e, ops) => (Except.error e, ops)
    | (Except.ok _, ops) =>
      let rest := runAll f xs
      (rest.1, ops ++ rest.2)

/-- `render_points` from src/engine/renderer.rs. -/
def render_points (points : List (ℚ × ℚ)) (render_context : RenderContext) :
    RenderResult :=
  let style := render_context.style
  let rest := runAll (fun p => render_single_point p.1 p.2 style.point_radius) points
  (rest.1, CanvasOp.setFillStyle style.point_color :: rest.2)

/-- `draw_path` from src/engine/renderer.rs. -/
def draw_path (points : List (ℚ × ℚ)) : RenderResult :=
  match points.head? with
  | none => (Except.ok (), [])
  | some first =>
    (Except.ok (),
      CanvasOp.beginPath :: CanvasOp.moveTo first.1 first.2 ::
        (points.drop 1).map (fun p => CanvasOp.lineTo p.1 p.2))

/-- `render_linestring` from src/engine/renderer.rs. -/
def render_linestring (points : List (ℚ × ℚ)) (render_context : RenderContext) :
    RenderResult :=
  if points.isEmpty then
    (Except.ok (), [])
  else
    let style := render_context.style
    let path := draw_path points
    (path.1,
      CanvasOp.setStrokeStyle style.line_color ::
        CanvasOp.setLineWidth style.line_width :: (path.2 ++ [CanvasOp.stroke]))

/-- `render_polygon` from src/engine/renderer.rs. -/
def render_polygon (points : List (ℚ × ℚ)) (render_context : RenderContext) :
    RenderResult :=
  if points.isEmpty then
    (Except.ok (), [])
  else
    let style := render_context.style
    let path := draw_path points
    (path.1,
      CanvasOp.setFillStyle style.polygon_fill ::
        CanvasOp.setStrokeStyle style.polygon_stroke ::
          CanvasOp.setLineWidth style.line_width ::
            (path.2 ++ [CanvasOp.closePath, CanvasOp.fill, CanvasOp.stroke]))

/-- `render_with_canvas` from src/engine/mod.rs.  The source is an explicit
placeholder: it never invokes the drawing closure it is handed and returns
`Ok(())`, so no canvas primitive is issued and no error can surface. -/
def render_with_canvas (_context : RenderContext) (_render_fn : RenderResult) :
    RenderResult :=
  (Except.ok (), [])

/-- `render_point_geometry` from src/engine/mod.rs. -/
def render_point_geometry (geometry : GeoValue) (context : RenderContext) :
    RenderResult :=
  match (create_coordinate_transformer context geometry).map (fun coords =>
      render_with_canvas context (render_points coords context)) with
  | some r => r
  | none => (Except.ok (), [])

/-- `render_linestring_geometry` from src/engine/mod.rs. -/
def render_linestring_geometry (geometry : GeoValue) (context : RenderContext) :
    RenderResult :=
  match (create_coordinate_transformer context geometry).map (fun coords =>
      render_with_canvas context (render_linestring coords context)) with
  | some r => r
  | none => (Except.ok (), [])

/-- `render_polygon_geometry` from src/engine/mod.rs. -/
def render_polygon_geometry (geometry : GeoValue) (context : RenderContext) :
    RenderResult :=
  match (create_polygon_transformer context geometry).map (fun coords =>
      render_with_canvas context (render_polygon coords context)) with
  | some r => r
  | none => (Except.ok (), [])

/-- `render_multipoint_geometry` from src/engine/mod.rs. -/
def render_multipoint_geometry (geometry : GeoValue) (context : RenderContext) :
    RenderResult :=
  match (extract_multipoint_coordinates geometry).map (fun positions =>
      let coords := transform_coordinates context positions
      render_with_canvas context (render_points coords context)) with
  | some r => r
  | none => (Except.ok (), [])

/-- `render_multilinestring_geometry` from src/engine/mod.rs. -/
def render_multilinestring_geometry (geometry : GeoValue) (context : RenderContext) :
    RenderResult :=
  match (extract_multilinestring_coordinates geometry).map (fun line_strings =>
      runAll (fun line =>
        let coords := transform_coordinates context line
        render_with_canvas context (render_linestring coords context)) line_strings) with
  | some r => r
  | none => (Except.ok (), [])

/-- `render_multipolygon_geometry` from src/engine/mod.rs (only the first ring
of each polygon is kept, via `filter_map(|rings| rings.first())`). -/
def render_multipolygon_geometry (geometry : GeoValue) (context : RenderContext) :
    RenderResult :=
  match (extract_multipolygon_coordinates geometry).map (fun polygons =>
      runAll (fun outer_ring =>
        let coords := transform_coordinates context outer_ring
        render_with_canvas context (render_polygon coords context))
        (polygons.filterMap List.head?)) with
  | some r => r
  | none => (Except.ok (), [])

mutual

/-- `render_geometry` from src/engine/mod.rs: dispatch on the geometry tag;
a `GeometryCollection` recursively renders its members with the fail-fast
`collect::<Result<Vec<_>, _>>()` strategy. -/
def render_geometry (geometry : GeoValue) (context : RenderContext) :
    RenderResult :=
  match geometry with
  | .Point p => render_point_geometry (.Point p) context
  | .LineString l => render_linestring_geometry (.LineString l) context
  | .Polygon r => render_polygon_geometry (.Polygon r) context
  | .MultiPoint p => render_multipoint_geometry (.MultiPoint p) context
  | .MultiLineString l => render_multilinestring_geometry (.MultiLineString l) context
  | .MultiPolygon p => render_multipolygon_geometry (.MultiPolygon p) context
  | .GeometryCollection geometries => render_geometry_list geometries context

/-- The `geometries.iter().map(render_geometry).collect::<Result<..>>()` loop
inside the `GeometryCollection` arm of `render_geometry`. -/
def render_geometry_list (geometries : List GeoValue) (context : RenderContext) :
    RenderResult :=
  match geometries with
  | [] => (Except.ok (), [])
  | g :: gs =>
    match render_geometry g context with
    | (Except.error e, ops) => (Except.error e, ops)
    | (Except.ok _, ops) =>
      let rest := render_geometry_list gs context
      (rest.1, ops ++ rest.2)

end

/-- `render_single_feature` from src/engine/mod.rs. -/
def render_single_feature (feature : Feature) (context : RenderContext) :
    RenderResult :=
  match feature.geometry with
  | some geometry => render_geometry geometry context
  | none => (Except.ok (), [])

/-- `render_features` from src/engine/mod.rs:
`features.iter().map(render_single_feature).collect::<Result<Vec<_>, _>>()`,
i.e. fail-fast sequencing over the feature list. -/
def render_features (features : List Feature) (context : RenderContext) :
    RenderResult :=
  runAll (fun f => render_single_feature f context) features

/-- Tile cache from src/engine/tiles.rs (`TileCache`).  The `DashMap<u32, Tile>`
is embedded as an association list keyed by the u32 tile id. -/
structure TileCache where
  tiles : List (ℕ × Tile)
  access_order : List ℕ
  max_size : ℕ
  current_size : ℕ
deriving DecidableEq, Repr

/-- `TileCache::new` from src/engine/tiles.rs.  The source's struct literal
initialises `tiles`, `max_size` and `current_size` but omits the
`access_order` field entirely (the file does not compile as written); the
only completion consistent with an empty cache is the empty list. -/
def TileCache.new (max_size : ℕ) : TileCache :=
  { tiles := [], access_order := [], max_size := max_size, current_size := 0 }

/-- `TileCache::get` from src/engine/tiles.rs:
`self.tiles.get(id).map(|entry| entry.value().clone())`.  The method takes
`&self`; it looks the id up and clones the tile, and performs no write of any
kind — in particular it never touches `access_order`, so a successful get
does not refresh the entry's recency. -/
def TileCache.get (c : TileCache) (id : ℕ) : Option Tile :=
  (c.tiles.find? (fun entry => entry.1 == id)).map (fun entry => entry.2)

/-- `TileCache::evict_oldest` from src/engine/tiles.rs, as its body would
execute if it were ever awaited: remove the entry named by the FIRST element
of `access_order` (insertion order, since nothing ever reorders that list),
pop that element, and decrement `current_size` (`usize` subtraction, clamped
here by `Nat` subtraction). -/
def TileCache.evict_oldest (c : TileCache) : TileCache :=
  match c.access_order with
  | [] => c
  | oldest :: rest =>
    { c with tiles := c.tiles.filter (fun entry => entry.1 != oldest),
             access_order := rest,
             current_size := c.current_size - 1 }

/-- `TileCache::insert` from src/engine/tiles.rs.  The body is
`if self.current_size >= self.max_size { self.evict_oldest() } todo!()`:
`evict_oldest` is an `async fn` invoked without `.await`, so the call only
builds a future that is immediately dropped — the eviction body never runs —
and then `todo!()` panics unconditionally before any entry is stored.  A
panicking call is modelled as `none`; no `some` state is ever produced. -/
def TileCache.insert (_c : TileCache) (_id : ℕ) (_tile : Tile) : Option TileCache :=
  none

/-- `TileCache::memory_usage` from src/engine/tiles.rs. -/
def TileCache.memory_usage (c : TileCache) : ℕ := c.current_size

/-- Concrete tile A for the capacity-2 LRU scenario (id 0 at zoom 1). -/
def demoTileA : Tile :=
  { x := 0, y := 0, z := 1, bounds := TileBounds.from_tile_coords 0 0 1,
    features := [], status := TileStatus.Loaded, last_accessed := 0 }

/-- A viewport with non-empty bounds: center (lat 20, lng 10), zoom 2,
800×600 pixels, bounds derived by `recalculate_bounds`. -/
def demoViewport : Viewport :=
  Viewport.recalculate_bounds
    { center := GeoPoint.new 20 10, zoom := 2, rotation := 0,
      size := { width := 800, height := 600 },
      bounds := GeoBounds.new 0 0 0 0,
      pixel_bounds := { min_x := 0, min_y := 0, max_x := 800, max_y := 600 } }

/-- The result of panning `demoViewport` to (lat 2, lng 1). -/
def demoPanned : Viewport :=
  Viewport.recalculate_bounds { demoViewport with center := GeoPoint.new 2 1 }

/-- A viewport whose `bounds` rectangle is empty (all components zero). -/
def emptyBoundsViewport : Viewport :=
  { center := GeoPoint.new 0 0, zoom := 0, rotation := 0,
    size := { width := 800, height := 600 },
    bounds := GeoBounds.new 0 0 0 0,
    pixel_bounds := { min_x := 0, min_y := 0, max_x := 800, max_y := 600 } }

/-- A render context with the same empty bounds and the same 800×600 surface
as `emptyBoundsViewport`. -/
def emptyBoundsContext : RenderContext :=
  { viewport_bounds := GeoBounds.new 0 0 0 0, canvas_size := (800, 600),
    zoom_level := 0, style := MapStyle.default }

/-- A viewport whose bounds exactly cover the whole world at zoom 0. -/
def worldViewport : Viewport :=
  { center := GeoPoint.new 0 0, zoom := 0, rotation := 0,
    size := { width := 256, height := 256 },
    bounds := GeoBounds.new (-180) (-90) 180 90,
    pixel_bounds := { min_x := 0, min_y := 0, max_x := 256, max_y := 256 } }

/-- The viewport produced by `Viewport::new((0,0), 1, 256×256)`. -/
def demoNewViewport : Viewport :=
  Viewport.recalculate_bounds
    { center := GeoPoint.new 0 0, zoom := 1, rotation := 0,
      size := { width := 256, height := 256 },
      bounds := GeoBounds.new 0 0 0 0,
      pixel_bounds := { min_x := 0, min_y := 0, max_x := 256, max_y := 256 } }

/-- A render context over the whole world on an 800×600 surface. -/
def demoContext : RenderContext :=
  { viewport_bounds := GeoBounds.new (-180) (-90) 180 90,
    canvas_size := (800, 600), zoom_level := 2, style := MapStyle.default }

/-- A feature holding one valid Point geometry (lng 10, lat 20). -/
def demoPointFeature : Feature := { geometry := some (GeoValue.Point (10, 20)) }

/-- A feature holding a malformed LineString.  The spec's instance uses a
non-finite coordinate; non-finite doubles have no rational value, and the
rendering pipeline never inspects coordinate validity at all (its
`validate_coordinates` helper is never called), so any malformed coordinate —
here an out-of-range (lng 200, lat 95) — exercises the identical code path:
transform and continue, no error. -/
def demoBadLineFeature : Feature :=
  { geometry := some (GeoValue.LineString [(0, 0), (200, 95)]) }

/-- The spec's bounds-recomputation formula, as the claim states it:
`scale = 1 / 2^floor(zoom)`, `halfWidth = (pixelWidth/2) * scale * 360/256`,
`halfHeight = (pixelHeight/2) * scale * 180/256`, bounds = center ± half. -/
def boundsFormulaHolds (v : Viewport) : Prop :=
  v.bounds = GeoBounds.new
    (v.center.lng - ((v.size.width : ℚ) / 2) * (1 / (2 : ℚ) ^ (Int.floor v.zoom)) * (360 / 256))
    (v.center.lat - ((v.size.height : ℚ) / 2) * (1 / (2 : ℚ) ^ (Int.floor v.zoom)) * (180 / 256))
    (v.center.lng + ((v.size.width : ℚ) / 2) * (1 / (2 : ℚ) ^ (Int.floor v.zoom)) * (360 / 256))
    (v.center.lat + ((v.size.height : ℚ) / 2) * (1 / (2 : ℚ) ^ (Int.floor v.zoom)) * (180 / 256))

/-- C1: the claimed capacity-2 LRU scenario (insert A, insert B, get A,
insert C, expect B evicted and A retained) cannot even begin on the source:
the very first `TileCache::insert` call hits `todo!()` and panics before
storing anything (and `TileCache::get`, taking `&self`, performs no write,
so no successful get ever refreshes an entry's recency). -/
theorem tileCache_lru_scenario_first_insert_panics :
    TileCache.insert (TileCache.new 2) 0 demoTileA = none := rfl

/-- C2: `TileCache::insert` never returns at all — for every cache state and
argument it panics at `todo!()` (and the `evict_oldest()` call before the
panic builds an unawaited future, so not even the eviction runs) — hence no
state "after an insert returns" exists and the capacity bound is never
established by the code. -/
theorem tileCache_insert_never_returns (c : TileCache) (id : ℕ) (t : Tile) :
    TileCache.insert c id t = none := rfl

/-- C7: a viewport whose geographic bounds exactly cover the whole world
([-180,180] × [-90,90]) at zoom 0 requires exactly the single tile
(x 0, y 0, z 0). -/
theorem required_tiles_world_zoom0 (v : Viewport)
    (hz : v.zoom = 0) (hb : v.bounds = GeoBounds.new (-180) (-90) 180 90) :
    v.get_required_tiles = [(0, 0, 0)] := by
  simp only [Viewport.get_required_tiles, hz, hb, GeoBounds.new]
  norm_num [rangeIncl]
  decide

/-- Witness for C7: the theorem applied to the concrete `worldViewport`. -/
theorem required_tiles_world_zoom0_app :
    worldViewport.get_required_tiles = [(0, 0, 0)] :=
  required_tiles_world_zoom0 worldViewport rfl rfl

/-- C9: polygon validity holds for a ring exactly when it has at least four
points, every point is valid, and the first point equals the last; in
particular a 3-point ring fails, a 4-point unclosed ring fails, and a closed
4-point ring of valid points passes. -/
theorem polygon_ring_validation :
    (∀ rings : List (List GeoPoint),
      (FeatureGeometry.Polygon rings).is_valid = true ↔
        rings ≠ [] ∧ ∀ ring ∈ rings,
          4 ≤ ring.length ∧ (∀ p ∈ ring, p.is_valid = true) ∧
          ring.head? = ring.getLast?) ∧
    (FeatureGeometry.Polygon
      [[GeoPoint.new 0 0, GeoPoint.new 0 1, GeoPoint.new 1 1]]).is_valid = false ∧
    (FeatureGeometry.Polygon
      [[GeoPoint.new 0 0, GeoPoint.new 0 1, GeoPoint.new 1 1,
        GeoPoint.new 1 0]]).is_valid = false ∧
    (FeatureGeometry.Polygon
      [[GeoPoint.new 0 0, GeoPoint.new 0 1, GeoPoint.new 1 1,
        GeoPoint.new 0 0]]).is_valid = true := by
  refine ⟨?_, by decide, by decide, by decide⟩
  intro rings
  simp [FeatureGeometry.is_valid, List.all_eq_true, List.isEmpty_iff, and_assoc]

/-- Witness for C9: the general characterisation applied to the concrete
closed 4-point ring. -/
theorem polygon_ring_validation_app :
    [[GeoPoint.new 0 0, GeoPoint.new 0 1, GeoPoint.new 1 1, GeoPoint.new 0 0]] ≠
      ([] : List (List GeoPoint)) ∧
    ∀ ring ∈ [[GeoPoint.new 0 0, GeoPoint.new 0 1, GeoPoint.new 1 1,
        GeoPoint.new 0 0]],
      4 ≤ ring.length ∧ (∀ p ∈ ring, p.is_valid = true) ∧
      ring.head? = ring.getLast? :=
  (polygon_ring_validation.1 _).mp (by decide)

/-- C10: `Tile::new` panics (returns no value) exactly when `z > 20`; for
`z ≤ 20` it returns a tile with status `NotLoaded`, an empty feature list,
and bounds obtained by dividing the unit square into `2^z` parts per axis. -/
theorem tile_new_panics_or_builds (x y z now : ℕ) :
    (20 < z → Tile.new x y z now = none) ∧
    (z ≤ 20 → Tile.new x y z now = some
      { x := x, y := y, z := z,
        bounds := TileBounds.new
          ((x : ℚ) * (1 / 2 ^ z)) ((y : ℚ) * (1 / 2 ^ z))
          ((x : ℚ) * (1 / 2 ^ z) + 1 / 2 ^ z) ((y : ℚ) * (1 / 2 ^ z) + 1 / 2 ^ z),
        features := [], status := TileStatus.NotLoaded, last_accessed := now }) := by
  constructor
  · intro h
    simp [Tile.new, h]
  · intro h
    have hz : ¬ z > 20 := by omega
    have hc : ((2 ^ z : ℕ) : ℚ) = (2 : ℚ) ^ z := by push_cast; ring
    simp [Tile.new, hz, TileBounds.from_tile_coords, TileBounds.new, hc]

/-- Witness for C10: the theorem applied at z = 21 (panic) and at the
concrete tile (1, 2, 3). -/
theorem tile_new_panics_or_builds_app :
    Tile.new 3 5 21 7 = none ∧
    Tile.new 1 2 3 7 = some
      { x := 1, y := 2, z := 3,
        bounds := TileBounds.new
          ((1 : ℚ) * (1 / 2 ^ 3)) ((2 : ℚ) * (1 / 2 ^ 3))
          ((1 : ℚ) * (1 / 2 ^ 3) + 1 / 2 ^ 3) ((2 : ℚ) * (1 / 2 ^ 3) + 1 / 2 ^ 3),
        features := [], status := TileStatus.NotLoaded, last_accessed := 7 } :=
  ⟨(tile_new_panics_or_builds 3 5 21 7).1 (by norm_num),
   (tile_new_panics_or_builds 1 2 3 7).2 (by norm_num)⟩

/-- Helper: the derived bounds of `demoViewport` form a non-empty rectangle. -/
lemma demoViewport_bounds_not_empty : demoViewport.bounds.is_empty = false := by
  simp [demoViewport, Viewport.recalculate_bounds, GeoBounds.is_empty,
    GeoBounds.new, GeoPoint.new]
  norm_num

/-- Counterexample for C4: with empty bounds (all components 0, so
`min ≥ max` on both axes) and matching 800×600 surface,
`Viewport::world_to_screen` returns (0, 0) but the pipeline's
`transform_position` (`RenderContext::world_to_screen`) applies the
interpolation formula with zero-width denominators and does not: here it
yields (0, 600) under exact-rational division (under IEEE f64 it would be a
non-finite pair), in either case not (0, 0). -/
theorem transform_position_empty_bounds_mismatch :
    transform_position emptyBoundsContext (5, 5) ≠
      emptyBoundsViewport.world_to_screen (GeoPoint.new 5 5) := by
  simp [transform_position, RenderContext.world_to_screen,
    Viewport.world_to_screen, emptyBoundsContext, emptyBoundsViewport,
    GeoBounds.new, GeoBounds.is_empty, GeoPoint.new, MapStyle.default,
    Prod.ext_iff]

/-- C4 (amended): whenever the context's bounds are NON-empty and equal a
viewport's bounds, with the canvas size equal to the viewport's pixel size,
`transform_position` agrees with `Viewport::world_to_screen` on every
position; on empty bounds the two disagree (see the counterexample). -/
theorem transform_position_matches_viewport (v : Viewport) (zl : ℕ)
    (st : MapStyle) (p : Position) (h : v.bounds.is_empty = false) :
    transform_position
      { viewport_bounds := v.bounds,
        canvas_size := ((v.size.width : ℚ), (v.size.height : ℚ)),
        zoom_level := zl, style := st } p =
      v.world_to_screen (GeoPoint.new p.2 p.1) := by
  simp [transform_position, RenderContext.world_to_screen,
    Viewport.world_to_screen, h, GeoPoint.new]

/-- Witness for C4's amended theorem at `demoViewport` and position
(lng 3, lat 4). -/
theorem transform_position_matches_viewport_app :
    transform_position
      { viewport_bounds := demoViewport.bounds,
        canvas_size := ((demoViewport.size.width : ℚ), (demoViewport.size.height : ℚ)),
        zoom_level := 2, style := MapStyle.default } (3, 4) =
      demoViewport.world_to_screen (GeoPoint.new 4 3) :=
  transform_position_matches_viewport demoViewport 2 MapStyle.default (3, 4)
    demoViewport_bounds_not_empty

/-- C5: on any viewport with non-empty bounds and non-degenerate pixel size
the two coordinate maps are mutually inverse — `screen_to_world` recovers any
geographic point from its `world_to_screen` image exactly, and
`world_to_screen` recovers any interior pixel point from its
`screen_to_world` image exactly (exact rationals, so "within floating-point
epsilon" holds with zero error). -/
theorem screen_world_round_trip (v : Viewport)
    (hb : v.bounds.is_empty = false)
    (hw : 0 < v.size.width) (hh : 0 < v.size.height) :
    (∀ p : GeoPoint,
      v.screen_to_world (v.world_to_screen p).1 (v.world_to_screen p).2 = p) ∧
    (∀ x y : ℚ, 0 ≤ x → x ≤ (v.size.width : ℚ) → 0 ≤ y → y ≤ (v.size.height : ℚ) →
      v.world_to_screen (v.screen_to_world x y) = (x, y)) := by
  simp only [GeoBounds.is_empty, Bool.or_eq_false_iff, decide_eq_false_iff_not,
    not_le, ge_iff_le] at hb
  have hx : v.bounds.max_x - v.bounds.min_x ≠ 0 := sub_ne_zero_of_ne (ne_of_gt hb.1)
  have hy : v.bounds.max_y - v.bounds.min_y ≠ 0 := sub_ne_zero_of_ne (ne_of_gt hb.2)
  have hwq : (v.size.width : ℚ) ≠ 0 := Nat.cast_ne_zero.mpr (Nat.pos_iff_ne_zero.mp hw)
  have hhq : (v.size.height : ℚ) ≠ 0 := Nat.cast_ne_zero.mpr (Nat.pos_iff_ne_zero.mp hh)
  have hbe : v.bounds.is_empty = false := by
    simp only [GeoBounds.is_empty, Bool.or_eq_false_iff, decide_eq_false_iff_not,
      not_le, ge_iff_le]
    exact hb
  constructor
  · intro p
    obtain ⟨plat, plng⟩ := p
    simp only [Viewport.world_to_screen, Viewport.screen_to_world, hbe,
      Bool.false_eq_true, if_false, GeoPoint.new, GeoPoint.mk.injEq]
    constructor
    · field_simp
      ring
    · field_simp
      ring
  · intro x y _ _ _ _
    simp only [Viewport.world_to_screen, Viewport.screen_to_world, hbe,
      Bool.false_eq_true, if_false, GeoPoint.new, Prod.mk.injEq]
    constructor
    · field_simp
      ring
    · field_simp
      ring

/-- Witness for C5 at `demoViewport`, geographic point (lat 21, lng 11) and
interior pixel point (100, 200). -/
theorem screen_world_round_trip_app :
    demoViewport.screen_to_world
        (demoViewport.world_to_screen (GeoPoint.new 21 11)).1
        (demoViewport.world_to_screen (GeoPoint.new 21 11)).2 =
      GeoPoint.new 21 11 ∧
    demoViewport.world_to_screen (demoViewport.screen_to_world 100 200) =
      (100, 200) :=
  ⟨(screen_world_round_trip demoViewport demoViewport_bounds_not_empty
      (by norm_num [demoViewport, Viewport.recalculate_bounds])
      (by norm_num [demoViewport, Viewport.recalculate_bounds])).1
      (GeoPoint.new 21 11),
   (screen_world_round_trip demoViewport demoViewport_bounds_not_empty
      (by norm_num [demoViewport, Viewport.recalculate_bounds])
      (by norm_num [demoViewport, Viewport.recalculate_bounds])).2
      100 200 (by norm_num)
      (by norm_num [demoViewport, Viewport.recalculate_bounds])
      (by norm_num)
      (by norm_num [demoViewport, Viewport.recalculate_bounds])⟩

/-- Helper: `recalculate_bounds` establishes the spec's bounds formula for
any viewport with non-negative zoom. -/
lemma recalculate_establishes_formula (v : Viewport) (h : 0 ≤ v.zoom) :
    boundsFormulaHolds v.recalculate_bounds := by
  have h0 : (0 : ℤ) ≤ Int.floor v.zoom := Int.floor_nonneg.mpr h
  have hpow : ((2 ^ (Int.floor v.zoom).toNat : ℕ) : ℚ) =
      (2 : ℚ) ^ (Int.floor v.zoom) := by
    push_cast
    rw [← zpow_natCast, Int.toNat_of_nonneg h0]
  simp only [boundsFormulaHolds, Viewport.recalculate_bounds, GeoBounds.new,
    GeoBounds.mk.injEq]
  rw [hpow]
  refine ⟨by ring, by ring, by ring, by ring⟩

/-- C6: after construction (`Viewport::new`) and after every mutation
(`pan`, `zoom_to`, `resize`, `rotate`), the viewport's derived geographic
bounds equal center ± (halfWidth, halfHeight) with
`scale = 1 / 2^floor(zoom)`, `halfWidth = (pixelWidth/2) * scale * 360/256`
and `halfHeight = (pixelHeight/2) * scale * 180/256`.  The mutations that do
not themselves validate zoom (`pan`, `resize`, `rotate`) carry the viewport
invariant `0 ≤ zoom` as a hypothesis (zoom is validated into [0, 20] by
`new` and `zoom_to`, so it holds of every API-produced viewport). -/
theorem viewport_bounds_follow_formula :
    (∀ c z s v, Viewport.new c z s = Except.ok v → boundsFormulaHolds v) ∧
    (∀ (v : Viewport) c w, 0 ≤ v.zoom → v.pan c = Except.ok w →
      boundsFormulaHolds w) ∧
    (∀ (v : Viewport) z w, v.zoom_to z = Except.ok w → boundsFormulaHolds w) ∧
    (∀ (v : Viewport) s w, 0 ≤ v.zoom → v.resize s = Except.ok w →
      boundsFormulaHolds w) ∧
    (∀ (v : Viewport) r, 0 ≤ v.zoom → boundsFormulaHolds (v.rotate r)) := by
  refine ⟨?_, ?_, ?_, ?_, ?_⟩
  · intro c z s v hv
    by_cases h1 : c.is_valid
    · by_cases h2 : z < 0 ∨ z > 20
      · simp [Viewport.new, h1, h2] at hv
      · by_cases h3 : s.width = 0 ∨ s.height = 0
        · simp [Viewport.new, h1, h2, h3] at hv
        · simp [Viewport.new, h1, h2, h3] at hv
          subst hv
          exact recalculate_establishes_formula _ (by push_neg at h2; exact h2.1)
    · simp [Viewport.new, h1] at hv
  · intro v c w h hw
    by_cases h1 : c.is_valid
    · simp [Viewport.pan, h1] at hw
      subst hw
      exact recalculate_establishes_formula _ h
    · simp [Viewport.pan, h1] at hw
  · intro v z w hw
    by_cases h2 : z < 0 ∨ z > 20
    · simp [Viewport.zoom_to, h2] at hw
    · simp [Viewport.zoom_to, h2] at hw
      subst hw
      exact recalculate_establishes_formula _ (by push_neg at h2; exact h2.1)
  · intro v s w h hw
    by_cases h3 : s.width = 0 ∨ s.height = 0
    · simp [Viewport.resize, h3] at hw
    · simp [Viewport.resize, h3] at hw
      subst hw
      exact recalculate_establishes_formula _ h
  · intro v r h
    exact recalculate_establishes_formula _ h

/-- Witness for C6: the construction clause applied to the concrete call
`Viewport::new((0,0), zoom 1, 256×256)`. -/
theorem viewport_bounds_follow_formula_app : boundsFormulaHolds demoNewViewport :=
  viewport_bounds_follow_formula.1 (GeoPoint.new 0 0) 1
    { width := 256, height := 256 } demoNewViewport rfl

/-- C8: each mutation validates its argument with the construction rules —
`pan` rejects an invalid center, `zoom_to` rejects zoom outside [0, 20],
`resize` rejects a zero dimension (rotation has no construction rule, and
`rotate` accordingly accepts any angle) — with rejection occurring before any
field is written (the embedded state passing returns only the error, the
viewport unchanged); on success exactly the one field is mutated and the
derived bounds are recomputed before returning, stated as: the returned
viewport is a fixed point of `recalculate_bounds`, so no stale-bounds state
is observable. -/
theorem viewport_mutations_validate_and_recompute :
    (∀ (v : Viewport) (c : GeoPoint),
      (c.is_valid = false →
        v.pan c = Except.error (GeoArrowError.Serialization msgInvalidCenter)) ∧
      (∀ w, v.pan c = Except.ok w →
        w.center = c ∧ w.zoom = v.zoom ∧ w.rotation = v.rotation ∧
        w.size = v.size ∧ w.recalculate_bounds = w)) ∧
    (∀ (v : Viewport) (z : ℚ),
      ((z < 0 ∨ 20 < z) →
        v.zoom_to z = Except.error (GeoArrowError.Serialization msgInvalidZoom)) ∧
      (∀ w, v.zoom_to z = Except.ok w →
        w.zoom = z ∧ w.center = v.center ∧ w.rotation = v.rotation ∧
        w.size = v.size ∧ w.recalculate_bounds = w)) ∧
    (∀ (v : Viewport) (s : PixelSize),
      ((s.width = 0 ∨ s.height = 0) →
        v.resize s = Except.error (GeoArrowError.Serialization msgInvalidSize)) ∧
      (∀ w, v.resize s = Except.ok w →
        w.size = s ∧ w.center = v.center ∧ w.zoom = v.zoom ∧
        w.rotation = v.rotation ∧ w.recalculate_bounds = w)) ∧
    (∀ (v : Viewport) (r : ℚ),
      (v.rotate r).rotation = r ∧ (v.rotate r).center = v.center ∧
      (v.rotate r).zoom = v.zoom ∧ (v.rotate r).size = v.size ∧
      (v.rotate r).recalculate_bounds = v.rotate r) := by
  refine ⟨?_, ?_, ?_, ?_⟩
  · intro v c
    constructor
    · intro h
      simp [Viewport.pan, h]
    · intro w hw
      by_cases h1 : c.is_valid
      · simp [Viewport.pan, h1] at hw
        subst hw
        exact ⟨rfl, rfl, rfl, rfl, rfl⟩
      · simp [Viewport.pan, h1] at hw
  · intro v z
    constructor
    · intro h
      have h2 : z < 0 ∨ z > 20 := h
      simp [Viewport.zoom_to, h2]
    · intro w hw
      by_cases h2 : z < 0 ∨ z > 20
      · simp [Viewport.zoom_to, h2] at hw
      · simp [Viewport.zoom_to, h2] at hw
        subst hw
        exact ⟨rfl, rfl, rfl, rfl, rfl⟩
  · intro v s
    constructor
    · intro h
      simp [Viewport.resize, h]
    · intro w hw
      by_cases h3 : s.width = 0 ∨ s.height = 0
      · simp [Viewport.resize, h3] at hw
      · simp [Viewport.resize, h3] at hw
        subst hw
        exact ⟨rfl, rfl, rfl, rfl, rfl⟩
  · intro v r
    exact ⟨rfl, rfl, rfl, rfl, rfl⟩

/-- Witness for C8: panning `demoViewport` to the invalid center
(lat 91, lng 0) is rejected with the construction-rule error, and panning to
the valid (lat 2, lng 1) yields `demoPanned`, whose center is the new one and
whose bounds are a fixed point of `recalculate_bounds` (no stale bounds). -/
theorem viewport_mutations_validate_and_recompute_app :
    Viewport.pan demoViewport (GeoPoint.new 91 0) =
      Except.error (GeoArrowError.Serialization msgInvalidCenter) ∧
    demoPanned.center = GeoPoint.new 2 1 ∧
    demoPanned.recalculate_bounds = demoPanned :=
  ⟨(viewport_mutations_validate_and_recompute.1 demoViewport
      (GeoPoint.new 91 0)).1 (by norm_num [GeoPoint.is_valid, GeoPoint.new]),
   ((viewport_mutations_validate_and_recompute.1 demoViewport
      (GeoPoint.new 2 1)).2 demoPanned rfl).1,
   ((viewport_mutations_validate_and_recompute.1 demoViewport
      (GeoPoint.new 2 1)).2 demoPanned rfl).2.2.2.2⟩

/-- Helper: `runAll` over a function that always succeeds without issuing
canvas primitives succeeds without issuing canvas primitives. -/
lemma runAll_ok_of_all_ok {α : Type} (f : α → RenderResult)
    (hf : ∀ a, f a = (Except.ok (), [])) :
    ∀ l : List α, runAll f l = (Except.ok (), []) := by
  intro l
  induction l with
  | nil => rfl
  | cons x xs ih => simp [runAll, hf, ih]

mutual

/-- Helper: every geometry dispatch returns `Ok` and issues no canvas
primitive, because each arm funnels its drawing closure through the
placeholder `render_with_canvas`, which discards it. -/
theorem render_geometry_always_ok (g : GeoValue) (ctx : RenderContext) :
    render_geometry g ctx = (Except.ok (), []) := by
  cases g with
  | Point p =>
      simp [render_geometry, render_point_geometry,
        create_coordinate_transformer, extract_point_coordinates,
        render_with_canvas]
  | LineString l =>
      simp [render_geometry, render_linestring_geometry,
        create_coordinate_transformer, extract_linestring_coordinates,
        render_with_canvas]
  | Polygon rings =>
      cases rings with
      | nil =>
          simp [render_geometry, render_polygon_geometry,
            create_polygon_transformer, extract_polygon_coordinates]
      | cons r rs =>
          simp [render_geometry, render_polygon_geometry,
            create_polygon_transformer, extract_polygon_coordinates,
            render_with_canvas]
  | MultiPoint p =>
      simp [render_geometry, render_multipoint_geometry,
        extract_multipoint_coordinates, render_with_canvas]
  | MultiLineString lines =>
      have h := runAll_ok_of_all_ok
        (fun line => render_with_canvas ctx
          (render_linestring (transform_coordinates ctx line) ctx))
        (fun _ => rfl) lines
      simp [render_geometry, render_multilinestring_geometry,
        extract_multilinestring_coordinates, h]
  | MultiPolygon polygons =>
      have h := runAll_ok_of_all_ok
        (fun outer_ring => render_with_canvas ctx
          (render_polygon (transform_coordinates ctx outer_ring) ctx))
        (fun _ => rfl) (polygons.filterMap List.head?)
      simp [render_geometry, render_multipolygon_geometry,
        extract_multipolygon_coordinates, h]
  | GeometryCollection gs =>
      have h := render_geometry_list_always_ok gs ctx
      simp [render_geometry, h]

/-- Helper: the geometry-collection loop also always returns `Ok` with an
empty trace. -/
theorem render_geometry_list_always_ok (gs : List GeoValue) (ctx : RenderContext) :
    render_geometry_list gs ctx = (Except.ok (), []) := by
  cases gs with
  | nil => simp [render_geometry_list]
  | cons g rest =>
      have h1 := render_geometry_always_ok g ctx
      have h2 := render_geometry_list_always_ok rest ctx
      simp [render_geometry_list, h1, h2]

end

/-- Counterexample for C3: rendering the collection of one valid Point
feature and one malformed LineString feature returns `Ok` — so ZERO
per-feature errors are reported, where the claim requires exactly one — and
issues an empty canvas trace — so the point's arc-draw call is NOT issued,
where the claim requires it.  (The claim's fault-tolerant skip-and-continue
behaviour is also structurally absent: `render_features` collects into
`Result`, which aborts at the first error; no error ever arises only because
the placeholder `render_with_canvas` discards every drawing action.) -/
theorem render_point_and_bad_line_silent :
    render_features [demoPointFeature, demoBadLineFeature] demoContext =
      (Except.ok (), []) := by
  simp [render_features, runAll, render_single_feature, demoPointFeature,
    demoBadLineFeature, render_geometry_always_ok]

/-- C3 (amended): the render pass indeed never aborts, but vacuously rather
than fault-tolerantly — for EVERY feature list and render context,
`render_features` returns `Ok` having issued no canvas primitive at all: the
placeholder canvas helper discards each drawing action, per-feature geometry
errors are never produced (coordinates are never validated during
rendering), and consequently no error is reported for a malformed feature
and no draw call is issued for a valid one. -/
theorem render_pass_never_errs_never_draws (features : List Feature)
    (context : RenderContext) :
    render_features features context = (Except.ok (), []) := by
  induction features with
  | nil => rfl
  | cons f fs ih =>
    have hf : render_single_feature f context = (Except.ok (), []) := by
      cases hg : f.geometry with
      | none => simp [render_single_feature, hg]
      | some g => simp [render_single_feature, hg, render_geometry_always_ok]
    simp only [render_features] at ih ⊢
    simp [runAll, hf, ih]

end GeoArrowViz
